import Mathlib

/-!
Shallow embedding of `pkg/watcher/conditionwatcher.go` and
`pkg/azuredisk/device_perf_optimization_unsupported.go` from the
azuredisk-csi-driver repository, with theorems checking the
natural-language specification against the code.

The Go `sync.Map` of wait entries is modelled as an association list with
explicit state passing; the capacity-1 result channel as an `Option`
slot; Go `error` values as an explicit `GoError` structure carrying an
optional grpc status code.
-/

namespace Watcher

/-- The `ObjectType` string enumeration of conditionwatcher.go. -/
inductive ObjectType where
  | azVolumeAttachment
  | azVolume
  | azDriverNode
  deriving DecidableEq, Fintype

/-- The string value of each `ObjectType` constant. -/
def ObjectType.str : ObjectType → String
  | .azVolumeAttachment => "azvolumeattachments"
  | .azVolume => "azvolume"
  | .azDriverNode => "azdrivernode"

/-- The `eventType` enumeration: create, update, delete. -/
inductive EventType where
  | create
  | update
  | delete
  deriving DecidableEq

/-- Status codes used by this file via `status.Errorf`. -/
inductive ErrCode where
  | aborted
  | internal
  deriving DecidableEq

/-- A Go `error` value: gRPC-status errors carry a code, caller-supplied
predicate errors may carry none. -/
structure GoError where
  code : Option ErrCode
  msg : String
  deriving DecidableEq

/-- The variant of a Go interface value arriving at the event
handlers, as distinguished by the type switch in `handleEvent`:
the three known azuredisk CRI pointer types, or anything else. -/
inductive ObjKind where
  | azVolume
  | azVolumeAttachment
  | azDriverNode
  | unknown
  deriving DecidableEq

/-- An incoming notification object. `name` is what `meta.Accessor(obj).GetName()`
returns (the known CRI types all embed `ObjectMeta`). `implRuntimeObject`
records whether the dynamic type satisfies the `runtime.Object` interface,
checked by `obj.(runtime.Object)` in `handleEvent`. `payload` stands for the
rest of the object snapshot. -/
structure Obj where
  kind : ObjKind
  name : String
  implRuntimeObject : Bool
  payload : Nat
  deriving DecidableEq

/-- The type switch in `handleEvent` (lines 153-165): maps the three known
CRI pointer types to their `ObjectType`, everything else to the default
(unsupported) arm, modelled as `none`. -/
def objTypeOf : ObjKind → Option ObjectType
  | .azVolume => some ObjectType.azVolume
  | .azVolumeAttachment => some ObjectType.azVolumeAttachment
  | .azDriverNode => some ObjectType.azDriverNode
  | .unknown => none

/-- The `waitResult` struct: object snapshot (nil modelled as `none`) and
error. -/
structure WaitResult where
  obj : Option Obj := none
  err : Option GoError := none
  deriving DecidableEq

/-- The `waitEntry` struct. `conditionFunc` returns Go's `(bool, error)`
pair. The `waitChan` of capacity 1 is modelled by the `slot` field:
`none` when empty, `some r` when it holds an undelivered result.
`discarded` is modelled from the spec: `ConditionWaiter.Close` (in
conditionwaiter.go, not among the provided sources) discards the result
slot, after which a send attempt silently fails. -/
structure WaitEntry where
  conditionFunc : Obj → Bool → Bool × Option GoError
  slot : Option WaitResult := none
  discarded : Bool := false

/-- The `ConditionWatcher` struct: the `sync.Map` keyed by typed name is
an association list, `ns` is the `namespace` field. The
`informerFactory` field is modelled separately in `InformerFactory`. -/
structure ConditionWatcher where
  waitMap : List (String × WaitEntry)
  ns : String

/-- Go `fmt.Sprintf("%s/%s", string(objType), objName)` in `getTypedName`. -/
def getTypedName (objType : ObjectType) (objName : String) : String :=
  objType.str ++ "/" ++ objName

/-- `sync.Map.Load`: lookup in the association list. -/
def mapLoad (m : List (String × WaitEntry)) (k : String) : Option WaitEntry :=
  match m with
  | [] => none
  | (k', v) :: rest => if k' = k then some v else mapLoad rest k

/-- `sync.Map.Store`: replace the binding for `k`, or append it. -/
def mapStore (m : List (String × WaitEntry)) (k : String) (v : WaitEntry) :
    List (String × WaitEntry) :=
  match m with
  | [] => [(k, v)]
  | (k', v') :: rest => if k' = k then (k, v) :: rest else (k', v') :: mapStore rest k v

/-- The error built by `NewConditionWaiter` when a wait already exists:
`status.Errorf(codes.Aborted, "another wait operation in process for %s (%s)", objType, objName)`. -/
def alreadyWaitingErr (objType : ObjectType) (objName : String) : GoError :=
  { code := some ErrCode.aborted,
    msg := "another wait operation in process for " ++ objType.str ++ " (" ++ objName ++ ")" }

/-- The error built in `handleEvent` when the object fails the
`runtime.Object` type assertion. -/
def internalRuntimeObjErr : GoError :=
  { code := some ErrCode.internal, msg := "object does not implement runtime.Object interface." }

/-- The `ConditionWaiter` handle returned on success. The Go struct holds a
pointer to the shared `waitEntry` and a back-pointer to the watcher; in
the state-passing model the entry lives in the map under `entryKey`. -/
structure ConditionWaiter where
  objType : ObjectType
  objName : String
  entryKey : String
  deriving DecidableEq

/-- `ConditionWatcher.NewConditionWaiter` (lines 112-132): build a fresh
entry with an empty capacity-1 channel, then `sync.Map.LoadOrStore` on the
typed name. If a binding already exists it is left in place and an
Aborted error is returned; otherwise the fresh entry is stored and a
handle is returned. -/
def NewConditionWaiter (c : ConditionWatcher) (objType : ObjectType) (objName : String)
    (conditionFunc : Obj → Bool → Bool × Option GoError) :
    Except GoError ConditionWaiter × ConditionWatcher :=
  let entry : WaitEntry := { conditionFunc := conditionFunc, slot := none, discarded := false }
  match mapLoad c.waitMap (getTypedName objType objName) with
  | some _ => (Except.error (alreadyWaitingErr objType objName), c)
  | none =>
      (Except.ok { objType := objType, objName := objName,
                   entryKey := getTypedName objType objName },
       { c with waitMap := mapStore c.waitMap (getTypedName objType objName) entry })

/-- The observable outcome of one `handleEvent` call, mirroring its exit
paths: the default arm of the type switch (log and return), no wait entry
for the key, predicate returned (false, nil) (return without delivery),
result placed into the channel, or result dropped by the `select` default
arm (channel occupied or discarded; logged). -/
inductive HandleOutcome where
  | unsupportedType
  | noEntry
  | noDelivery
  | delivered (r : WaitResult)
  | dropped (r : WaitResult)
  deriving DecidableEq

/-- `ConditionWatcher.handleEvent` (lines 146-200). `meta.Accessor`
always succeeds for the known CRI types (they embed `ObjectMeta`), and for
an unknown type the switch default returns before `metaObj` is used, so
the accessor is not modelled further. Control flow: type switch with
default arm; `sync.Map.Load` on the typed name; call `conditionFunc(obj, eventType == delete)`;
on error set `result.err`, else if condition not met return; then the
`runtime.Object` assertion overwrites `result.err` on failure and sets
`result.obj` (nil on failure); finally a non-blocking `select` send into
the capacity-1 channel with a logging default arm. -/
def handleEvent (c : ConditionWatcher) (obj : Obj) (et : EventType) :
    HandleOutcome × ConditionWatcher :=
  match objTypeOf obj.kind with
  | none => (HandleOutcome.unsupportedType, c)
  | some objType =>
    match mapLoad c.waitMap (getTypedName objType obj.name) with
    | none => (HandleOutcome.noEntry, c)
    | some entry =>
      match entry.conditionFunc obj (et == EventType.delete) with
      | (false, none) => (HandleOutcome.noDelivery, c)
      | (_, err) =>
        let result : WaitResult :=
          { err := if obj.implRuntimeObject then err else some internalRuntimeObjErr,
            obj := if obj.implRuntimeObject then some obj else none }
        if entry.slot.isSome || entry.discarded then
          (HandleOutcome.dropped result, c)
        else
          (HandleOutcome.delivered result,
           { c with waitMap := mapStore c.waitMap (getTypedName objType obj.name)
                      { entry with slot := some result } })

/-- `ConditionWatcher.onCreate`. -/
def onCreate (c : ConditionWatcher) (obj : Obj) : HandleOutcome × ConditionWatcher :=
  handleEvent c obj EventType.create

/-- `ConditionWatcher.onUpdate` (first argument, the old object, ignored). -/
def onUpdate (c : ConditionWatcher) (_oldObj newObj : Obj) : HandleOutcome × ConditionWatcher :=
  handleEvent c newObj EventType.update

/-- `ConditionWatcher.onDelete`. -/
def onDelete (c : ConditionWatcher) (obj : Obj) : HandleOutcome × ConditionWatcher :=
  handleEvent c obj EventType.delete

/-- An informer, reduced to the readiness bit that `WaitForCacheSync`
consults through `HasSynced`. -/
structure Informer where
  hasSynced : Bool
  deriving DecidableEq

/-- The shared informer factory, reduced to the three informers the
constructor obtains from it. -/
structure InformerFactory where
  azVolumeAttachmentInformer : Informer
  azVolumeInformer : Informer
  azDriverNodeInformer : Informer
  deriving DecidableEq

/-- The observable trace of the constructor `New`: which informers had the
`onCreate`/`onUpdate`/`onDelete` handler set registered (in order), and
the outcome, with `none` modelling `klog.Fatalf` + `os.Exit(1)` when
`cache.WaitForCacheSync` reports failure. -/
structure NewTrace where
  handlersAdded : List ObjectType
  result : Option ConditionWatcher

/-- `New` (lines 70-106): obtain the three informers, build the watcher
with an empty `sync.Map`, register the event handler set on each of the
three informers, start the factory, then block on `cache.WaitForCacheSync`
over the three `HasSynced` probes; abort the process if it fails, return
the watcher otherwise. -/
def New (informerFactory : InformerFactory) (ns : String) : NewTrace :=
  let c : ConditionWatcher := { waitMap := [], ns := ns }
  let synced := informerFactory.azVolumeAttachmentInformer.hasSynced
    && informerFactory.azVolumeInformer.hasSynced
    && informerFactory.azDriverNodeInformer.hasSynced
  { handlersAdded := [ObjectType.azVolumeAttachment, ObjectType.azVolume, ObjectType.azDriverNode],
    result := if synced then some c else none }

/-- Fold `handleEvent` over a list of incoming events, as the informer
callbacks do one event at a time. -/
def processEvents (c : ConditionWatcher) : List (Obj × EventType) → ConditionWatcher
  | [] => c
  | (obj, et) :: rest => processEvents (handleEvent c obj et).2 rest

end Watcher

namespace Azuredisk

/-- Parameter type of `OptimizeDiskPerformance`, defined outside the
provided sources; opaque here. -/
structure NodeInfo

/-- Parameter type of `OptimizeDiskPerformance`, defined outside the
provided sources; opaque here. -/
structure DiskSkuInfo

/-- The empty `DeviceHelper` struct of the non-Linux build. -/
structure DeviceHelper

/-- `DeviceHelper.DiskSupportsPerfOptimization` on unsupported platforms:
returns false unconditionally. -/
def DeviceHelper.DiskSupportsPerfOptimization (_ : DeviceHelper)
    (_diskPerfProfile _diskAccountType : String) : Bool :=
  false

/-- `DeviceHelper.OptimizeDiskPerformance` on unsupported platforms:
returns nil unconditionally. -/
def DeviceHelper.OptimizeDiskPerformance (_ : DeviceHelper)
    (_nodeInfo : Option NodeInfo)
    (_diskSkus : List (String × List (String × DiskSkuInfo)))
    (_devicePath _perfProfile _accountType _diskSizeGibStr _diskIopsStr _diskBwMbpsStr : String) :
    Option Watcher.GoError :=
  none

end Azuredisk

namespace Watcher

/-- A predicate that reports the condition met, with no error. -/
def condTrue : Obj → Bool → Bool × Option GoError := fun _ _ => (true, none)

/-- A predicate that reports the condition not met, with no error. -/
def condFalse : Obj → Bool → Bool × Option GoError := fun _ _ => (false, none)

/-- A predicate satisfied exactly by deletion of the object. -/
def condIsDelete : Obj → Bool → Bool × Option GoError := fun _ isDeleted => (isDeleted, none)

/-- A predicate error value. -/
def predicateErr : GoError := { code := none, msg := "predicate failed" }

/-- A predicate that returns an error. -/
def condFail : Obj → Bool → Bool × Option GoError := fun _ _ => (false, some predicateErr)

/-- A sample AzVolume notification object. -/
def volObj : Obj :=
  { kind := ObjKind.azVolume, name := "vol-1", implRuntimeObject := true, payload := 0 }

/-- A sample object of the AzVolume variant that fails the `runtime.Object`
type assertion. -/
def rawObj : Obj :=
  { kind := ObjKind.azVolume, name := "vol-1", implRuntimeObject := false, payload := 0 }

/-- A sample object of a variant unknown to the type switch. -/
def unknownObj : Obj :=
  { kind := ObjKind.unknown, name := "pod-1", implRuntimeObject := true, payload := 0 }

/-- A watcher with an empty registry. -/
def emptyWatcher : ConditionWatcher := { waitMap := [], ns := "azure-disk" }

/-- A result already sitting in a wait entry's channel. -/
def occupiedResult : WaitResult := { obj := some volObj, err := none }

/-- A wait entry whose capacity-1 channel already holds a result. -/
def occupiedEntry : WaitEntry :=
  { conditionFunc := condTrue, slot := some occupiedResult, discarded := false }

/-- A watcher whose single wait entry already holds a result. -/
def occupiedWatcher : ConditionWatcher :=
  { waitMap := [("azvolume/vol-1", occupiedEntry)], ns := "azure-disk" }

/-- A watcher with one fresh wait entry whose predicate always succeeds. -/
def readyWatcher : ConditionWatcher :=
  { waitMap := [("azvolume/vol-1", { conditionFunc := condTrue, slot := none, discarded := false })],
    ns := "azure-disk" }

/-- A watcher with one fresh wait entry waiting for deletion. -/
def deleteWaitWatcher : ConditionWatcher :=
  { waitMap := [("azvolume/vol-1",
      { conditionFunc := condIsDelete, slot := none, discarded := false })],
    ns := "azure-disk" }

/-- A watcher with one fresh wait entry whose predicate errors. -/
def failWatcher : ConditionWatcher :=
  { waitMap := [("azvolume/vol-1", { conditionFunc := condFail, slot := none, discarded := false })],
    ns := "azure-disk" }

/-- An informer factory whose three caches have all completed their
initial sync. -/
def syncedFactory : InformerFactory :=
  { azVolumeAttachmentInformer := { hasSynced := true },
    azVolumeInformer := { hasSynced := true },
    azDriverNodeInformer := { hasSynced := true } }

end Watcher

namespace Watcher

/-- Storing under a key and loading that key yields the stored entry. -/
theorem mapLoad_mapStore_self (m : List (String × WaitEntry)) (k : String) (v : WaitEntry) :
    mapLoad (mapStore m k v) k = some v := by
  induction m with
  | nil => simp [mapStore, mapLoad]
  | cons p rest ih =>
    obtain ⟨k', v'⟩ := p
    by_cases h : k' = k <;> simp [mapStore, mapLoad, h, ih]

/-- Storing under a key leaves every other key's binding unchanged. -/
theorem mapLoad_mapStore_ne (m : List (String × WaitEntry)) (k k' : String) (v : WaitEntry)
    (h : k' ≠ k) : mapLoad (mapStore m k v) k' = mapLoad m k' := by
  induction m with
  | nil => simp [mapStore, mapLoad, Ne.symm h]
  | cons p rest ih =>
    obtain ⟨k2, v2⟩ := p
    by_cases h2 : k2 = k
    · subst h2
      simp [mapStore, mapLoad, Ne.symm h]
    · by_cases h3 : k2 = k' <;> simp [mapStore, mapLoad, h2, h3, h, ih]

end Watcher

namespace Watcher

/-- Once a wait entry's channel holds a result, no further event changes
that entry: a matching event's send attempt hits the `select` default arm
and an event for another key cannot touch this binding. -/
theorem handleEvent_preserves_occupied (c : ConditionWatcher) (obj : Obj) (et : EventType)
    (k : String) (entry : WaitEntry)
    (hk : mapLoad c.waitMap k = some entry) (hocc : entry.slot.isSome = true) :
    mapLoad (handleEvent c obj et).2.waitMap k = some entry := by
  cases hob : objTypeOf obj.kind with
  | none => simp [handleEvent, hob, hk]
  | some t =>
    cases hld : mapLoad c.waitMap (getTypedName t obj.name) with
    | none => simp [handleEvent, hob, hld, hk]
    | some e2 =>
      rcases hco : e2.conditionFunc obj (et == EventType.delete) with ⟨b, e⟩
      by_cases hkey : getTypedName t obj.name = k
      · have he2 : e2 = entry := by
          rw [hkey] at hld
          rw [hld] at hk
          exact Option.some.inj hk
        subst he2
        cases b <;> cases e <;> simp [handleEvent, hob, hld, hco, hocc, hk]
      · cases b <;> cases e <;>
          simp [handleEvent, hob, hld, hco, hk] <;>
          split <;>
          simp [hk, mapLoad_mapStore_ne _ _ _ _ (Ne.symm hkey)]

/-- An event whose derived key differs from `k` leaves the binding at `k`
unchanged, whatever the outcome. -/
theorem handleEvent_map_frame (c : ConditionWatcher) (obj : Obj) (et : EventType) (k : String)
    (hne : ∀ t, objTypeOf obj.kind = some t → getTypedName t obj.name ≠ k) :
    mapLoad (handleEvent c obj et).2.waitMap k = mapLoad c.waitMap k := by
  cases hob : objTypeOf obj.kind with
  | none => simp [handleEvent, hob]
  | some t =>
    cases hld : mapLoad c.waitMap (getTypedName t obj.name) with
    | none => simp [handleEvent, hob, hld]
    | some e2 =>
      rcases hco : e2.conditionFunc obj (et == EventType.delete) with ⟨b, e⟩
      cases b <;> cases e <;>
        simp [handleEvent, hob, hld, hco] <;>
        split <;>
        simp [mapLoad_mapStore_ne _ _ _ _ (Ne.symm (hne t hob))]

/-- The outcome of an event is independent of the entry registered under a
key different from the event's derived key: that entry's predicate is
never consulted. -/
theorem handleEvent_fst_congr (c : ConditionWatcher) (entry1 : WaitEntry) (obj : Obj)
    (et : EventType) (k : String)
    (hne : ∀ t, objTypeOf obj.kind = some t → getTypedName t obj.name ≠ k) :
    (handleEvent { c with waitMap := mapStore c.waitMap k entry1 } obj et).1 =
      (handleEvent c obj et).1 := by
  cases hob : objTypeOf obj.kind with
  | none => simp [handleEvent, hob]
  | some t =>
    have hmm : mapLoad (mapStore c.waitMap k entry1) (getTypedName t obj.name) =
        mapLoad c.waitMap (getTypedName t obj.name) :=
      mapLoad_mapStore_ne _ _ _ _ (hne t hob)
    cases hld : mapLoad c.waitMap (getTypedName t obj.name) with
    | none => simp [handleEvent, hob, hmm, hld]
    | some e2 =>
      rcases hco : e2.conditionFunc obj (et == EventType.delete) with ⟨b, e⟩
      cases b <;> cases e <;>
        simp [handleEvent, hob, hmm, hld, hco] <;>
        split <;> simp

end Watcher

namespace Watcher

/-- C1: for every key (objType, objName), `NewConditionWaiter` inserts a
wait entry only if no entry exists for that key; registering again for the
same key before the first wait terminates returns the AlreadyWaiting
(Aborted) error, leaves the state unchanged and does not overwrite the
first registration's entry, so of two registrations exactly one succeeds. -/
theorem newConditionWaiter_exclusive (c : ConditionWatcher) (t : ObjectType) (n : String)
    (f g : Obj → Bool → Bool × Option GoError)
    (h : mapLoad c.waitMap (getTypedName t n) = none) :
    (NewConditionWaiter c t n f).1 =
      Except.ok { objType := t, objName := n, entryKey := getTypedName t n } ∧
    mapLoad (NewConditionWaiter c t n f).2.waitMap (getTypedName t n) =
      some { conditionFunc := f, slot := none, discarded := false } ∧
    (NewConditionWaiter (NewConditionWaiter c t n f).2 t n g).1 =
      Except.error (alreadyWaitingErr t n) ∧
    (NewConditionWaiter (NewConditionWaiter c t n f).2 t n g).2 =
      (NewConditionWaiter c t n f).2 := by
  have hs := mapLoad_mapStore_self c.waitMap (getTypedName t n)
    { conditionFunc := f, slot := none, discarded := false }
  refine ⟨?_, ?_, ?_, ?_⟩ <;> simp [NewConditionWaiter, h, hs]

/-- Witness for C1: registering twice for the AzVolume "vol-1" key on an
empty watcher, the second registration gets the AlreadyWaiting error. -/
theorem newConditionWaiter_exclusive_witness :
    (NewConditionWaiter
        (NewConditionWaiter emptyWatcher ObjectType.azVolume "vol-1" condTrue).2
        ObjectType.azVolume "vol-1" condFalse).1 =
      Except.error (alreadyWaitingErr ObjectType.azVolume "vol-1") :=
  (newConditionWaiter_exclusive emptyWatcher ObjectType.azVolume "vol-1"
    condTrue condFalse rfl).2.2.1

/-- C2: a Result is delivered at most once per wait entry: once the
capacity-1 slot holds a result, no sequence of further events changes the
entry or its slot (the first terminal result wins, nothing is queued), and
any later event matching the same still-registered key whose predicate
reaches the send is dropped, leaving the state unchanged. -/
theorem result_delivered_at_most_once (c : ConditionWatcher) (k : String) (entry : WaitEntry)
    (r : WaitResult) (evs : List (Obj × EventType))
    (hk : mapLoad c.waitMap k = some entry) (hr : entry.slot = some r) :
    mapLoad (processEvents c evs).waitMap k = some entry ∧
    ∀ obj et t, objTypeOf obj.kind = some t → getTypedName t obj.name = k →
      ((entry.conditionFunc obj (et == EventType.delete)).1 = true ∨
        (entry.conditionFunc obj (et == EventType.delete)).2.isSome = true) →
      ∃ r2, handleEvent c obj et = (HandleOutcome.dropped r2, c) := by
  have hocc : entry.slot.isSome = true := by simp [hr]
  constructor
  · induction evs generalizing c with
    | nil => exact hk
    | cons ev rest ih =>
      obtain ⟨obj, et⟩ := ev
      exact ih _ (handleEvent_preserves_occupied c obj et k entry hk hocc)
  · intro obj et t hob hkey hcond
    have hld : mapLoad c.waitMap (getTypedName t obj.name) = some entry := by
      rw [hkey]; exact hk
    rcases hco : entry.conditionFunc obj (et == EventType.delete) with ⟨b, e⟩
    rw [hco] at hcond
    refine ⟨⟨if obj.implRuntimeObject then some obj else none,
             if obj.implRuntimeObject then e else some internalRuntimeObjErr⟩, ?_⟩
    cases b with
    | true => cases e <;> simp [handleEvent, hob, hld, hco, hocc]
    | false =>
      cases e with
      | none => simp at hcond
      | some e0 => simp [handleEvent, hob, hld, hco, hocc]

/-- Witness for C2: an update event for the occupied "azvolume/vol-1"
entry leaves that entry (and its held result) unchanged. -/
theorem result_delivered_at_most_once_witness :
    mapLoad (processEvents occupiedWatcher [(volObj, EventType.update)]).waitMap
        "azvolume/vol-1" = some occupiedEntry :=
  (result_delivered_at_most_once occupiedWatcher "azvolume/vol-1" occupiedEntry
    occupiedResult [(volObj, EventType.update)] rfl rfl).1

/-- C3: for an event matching a registered entry with a free, undiscarded
slot and an object implementing `runtime.Object`, the predicate's result
is interpreted exactly as: an error delivers an error Result; no error
with the condition met delivers the object snapshot as a success Result;
no error with the condition unmet delivers nothing and leaves the state
(hence the registered entry) unchanged. -/
theorem handleEvent_predicate_interpretation (c : ConditionWatcher) (obj : Obj)
    (et : EventType) (t : ObjectType) (entry : WaitEntry)
    (hob : objTypeOf obj.kind = some t)
    (hld : mapLoad c.waitMap (getTypedName t obj.name) = some entry)
    (hs : entry.slot = none) (hd : entry.discarded = false)
    (hro : obj.implRuntimeObject = true) :
    (∀ b e, entry.conditionFunc obj (et == EventType.delete) = (b, some e) →
      (handleEvent c obj et).1 =
        HandleOutcome.delivered { obj := some obj, err := some e }) ∧
    (entry.conditionFunc obj (et == EventType.delete) = (true, none) →
      (handleEvent c obj et).1 =
        HandleOutcome.delivered { obj := some obj, err := none }) ∧
    (entry.conditionFunc obj (et == EventType.delete) = (false, none) →
      handleEvent c obj et = (HandleOutcome.noDelivery, c)) := by
  refine ⟨?_, ?_, ?_⟩
  · intro b e hco
    cases b <;> simp [handleEvent, hob, hld, hco, hs, hd, hro]
  · intro hco
    simp [handleEvent, hob, hld, hco, hs, hd, hro]
  · intro hco
    simp [handleEvent, hob, hld, hco]

/-- Witness for C3: for the ready "azvolume/vol-1" entry, an update event
whose predicate returns (true, nil) delivers the object snapshot. -/
theorem handleEvent_predicate_interpretation_witness :
    (handleEvent readyWatcher volObj EventType.update).1 =
      HandleOutcome.delivered { obj := some volObj, err := none } :=
  (handleEvent_predicate_interpretation readyWatcher volObj EventType.update
    ObjectType.azVolume _ rfl rfl rfl rfl rfl).2.1 rfl

/-- C4: result delivery is non-blocking: when the matched entry's slot
already holds a result or has been discarded and the predicate outcome
reaches the send, the attempt only produces the dropped (logged) outcome
and the whole state, the slot's content included, is left unchanged; no
error is surfaced. -/
theorem handleEvent_nonblocking_send (c : ConditionWatcher) (obj : Obj) (et : EventType)
    (t : ObjectType) (entry : WaitEntry) (b : Bool) (e : Option GoError)
    (hob : objTypeOf obj.kind = some t)
    (hld : mapLoad c.waitMap (getTypedName t obj.name) = some entry)
    (hco : entry.conditionFunc obj (et == EventType.delete) = (b, e))
    (hproc : b = true ∨ e.isSome = true)
    (hfull : (entry.slot.isSome || entry.discarded) = true) :
    (handleEvent c obj et).2 = c ∧
    ∃ r, (handleEvent c obj et).1 = HandleOutcome.dropped r := by
  have hor : entry.slot.isSome = true ∨ entry.discarded = true := by
    rcases Bool.or_eq_true_iff.mp hfull with h | h
    · exact Or.inl h
    · exact Or.inr h
  cases b with
  | true => cases e <;> simp [handleEvent, hob, hld, hco, hor]
  | false =>
    cases e with
    | none => simp at hproc
    | some e0 => simp [handleEvent, hob, hld, hco, hor]

/-- Witness for C4: an update for the occupied "azvolume/vol-1" entry is
dropped and the watcher state is unchanged. -/
theorem handleEvent_nonblocking_send_witness :
    (handleEvent occupiedWatcher volObj EventType.update).2 = occupiedWatcher ∧
    ∃ r, (handleEvent occupiedWatcher volObj EventType.update).1 =
      HandleOutcome.dropped r :=
  handleEvent_nonblocking_send occupiedWatcher volObj EventType.update
    ObjectType.azVolume occupiedEntry true none rfl rfl rfl (Or.inl rfl) rfl

/-- C5: the dispatch path is total: an object of a variant unknown to the
type switch makes `handleEvent` take the default arm, log, and drop the
event with the registry unchanged — no waiter notified, no predicate
invoked, never a failure of the dispatch itself. -/
theorem handleEvent_unsupported_drops (c : ConditionWatcher) (obj : Obj) (et : EventType)
    (h : objTypeOf obj.kind = none) :
    handleEvent c obj et = (HandleOutcome.unsupportedType, c) := by
  simp [handleEvent, h]

/-- Witness for C5: an object of an unknown variant is dropped and the
empty watcher is unchanged. -/
theorem handleEvent_unsupported_drops_witness :
    handleEvent emptyWatcher unknownObj EventType.create =
      (HandleOutcome.unsupportedType, emptyWatcher) :=
  handleEvent_unsupported_drops emptyWatcher unknownObj EventType.create rfl

end Watcher

namespace Watcher

/-- C6: the constructor registers the event handler set on all three
informers (AzVolumeAttachment, AzVolume, AzDriverNode) and produces a
watcher exactly when every informer's initial cache sync has completed;
the watcher it returns starts with an empty registry (so no registration
precedes the barrier), and on sync failure it aborts (no watcher is
returned). -/
theorem new_subscribes_and_barriers (f : InformerFactory) (ns : String) :
    (New f ns).handlersAdded =
      [ObjectType.azVolumeAttachment, ObjectType.azVolume, ObjectType.azDriverNode] ∧
    ((New f ns).result.isSome ↔
      (f.azVolumeAttachmentInformer.hasSynced ∧ f.azVolumeInformer.hasSynced ∧
        f.azDriverNodeInformer.hasSynced)) ∧
    ((f.azVolumeAttachmentInformer.hasSynced ∧ f.azVolumeInformer.hasSynced ∧
        f.azDriverNodeInformer.hasSynced) →
      (New f ns).result = some { waitMap := [], ns := ns }) ∧
    (¬(f.azVolumeAttachmentInformer.hasSynced ∧ f.azVolumeInformer.hasSynced ∧
        f.azDriverNodeInformer.hasSynced) →
      (New f ns).result = none) := by
  obtain ⟨⟨s1⟩, ⟨s2⟩, ⟨s3⟩⟩ := f
  cases s1 <;> cases s2 <;> cases s3 <;> simp [New]

/-- C7: the predicate is always invoked with the flag (operation == delete):
a delete event for the watched key invokes it with isDelete = true, and a
predicate waiting for deletion is then satisfied and its object snapshot
delivered, while update and create events for the same key pass false and
deliver nothing. -/
theorem onDelete_passes_isDelete (c : ConditionWatcher) (obj oldObj : Obj)
    (t : ObjectType) (entry : WaitEntry)
    (hob : objTypeOf obj.kind = some t)
    (hld : mapLoad c.waitMap (getTypedName t obj.name) = some entry)
    (hs : entry.slot = none) (hd : entry.discarded = false)
    (hro : obj.implRuntimeObject = true)
    (hdel : entry.conditionFunc obj true = (true, none))
    (hupd : entry.conditionFunc obj false = (false, none)) :
    (onDelete c obj).1 = HandleOutcome.delivered { obj := some obj, err := none } ∧
    (onUpdate c oldObj obj).1 = HandleOutcome.noDelivery ∧
    (onCreate c obj).1 = HandleOutcome.noDelivery := by
  have hbd : (EventType.delete == EventType.delete) = true := rfl
  have hbu : (EventType.update == EventType.delete) = false := rfl
  have hbc : (EventType.create == EventType.delete) = false := rfl
  refine ⟨?_, ?_, ?_⟩
  · simp [onDelete, handleEvent, hob, hld, hbd, hdel, hs, hd, hro]
  · simp [onUpdate, handleEvent, hob, hld, hbu, hupd]
  · simp [onCreate, handleEvent, hob, hld, hbc, hupd]

/-- Witness for C7: a delete event for "azvolume/vol-1" satisfies the
wait-until-removed predicate and delivers the snapshot; update and create
events deliver nothing. -/
theorem onDelete_passes_isDelete_witness :
    (onDelete deleteWaitWatcher volObj).1 =
      HandleOutcome.delivered { obj := some volObj, err := none } ∧
    (onUpdate deleteWaitWatcher volObj volObj).1 = HandleOutcome.noDelivery ∧
    (onCreate deleteWaitWatcher volObj).1 = HandleOutcome.noDelivery :=
  onDelete_passes_isDelete deleteWaitWatcher volObj volObj ObjectType.azVolume
    _ rfl rfl rfl rfl rfl rfl rfl

/-- C8: events are isolated per key: an event whose derived key differs
from `k1` leaves the binding at `k1` (entry, predicate and result slot)
unchanged, and its outcome is independent of whatever entry is registered
at `k1`, so `k1`'s predicate is never consulted. -/
theorem handleEvent_key_isolation (c : ConditionWatcher) (obj : Obj) (et : EventType)
    (k1 : String) (entry1 : WaitEntry)
    (hne : ∀ t, objTypeOf obj.kind = some t → getTypedName t obj.name ≠ k1) :
    mapLoad (handleEvent c obj et).2.waitMap k1 = mapLoad c.waitMap k1 ∧
    (handleEvent { c with waitMap := mapStore c.waitMap k1 entry1 } obj et).1 =
      (handleEvent c obj et).1 :=
  ⟨handleEvent_map_frame c obj et k1 hne, handleEvent_fst_congr c entry1 obj et k1 hne⟩

/-- Witness for C8: an update for "azvolume/vol-1" neither changes the
binding at "azvolume/other" nor depends on the entry registered there. -/
theorem handleEvent_key_isolation_witness :
    mapLoad (handleEvent readyWatcher volObj EventType.update).2.waitMap
        "azvolume/other" = mapLoad readyWatcher.waitMap "azvolume/other" ∧
    (handleEvent
        { readyWatcher with
          waitMap := mapStore readyWatcher.waitMap "azvolume/other" occupiedEntry }
        volObj EventType.update).1 =
      (handleEvent readyWatcher volObj EventType.update).1 :=
  handleEvent_key_isolation readyWatcher volObj EventType.update "azvolume/other"
    occupiedEntry (by decide)

/-- C9: when the matched object fails the `runtime.Object` assertion, the
delivered Result carries the Internal-code error with a nil object; the
assignment comes after the predicate-error check, so even a predicate
error is replaced by the Internal error before delivery. -/
theorem handleEvent_non_runtime_object_internal (c : ConditionWatcher) (obj : Obj)
    (et : EventType) (t : ObjectType) (entry : WaitEntry) (b : Bool) (e : GoError)
    (hob : objTypeOf obj.kind = some t)
    (hld : mapLoad c.waitMap (getTypedName t obj.name) = some entry)
    (hs : entry.slot = none) (hd : entry.discarded = false)
    (hro : obj.implRuntimeObject = false)
    (hco : entry.conditionFunc obj (et == EventType.delete) = (b, some e)) :
    (handleEvent c obj et).1 =
      HandleOutcome.delivered { obj := none, err := some internalRuntimeObjErr } := by
  cases b <;> simp [handleEvent, hob, hld, hco, hs, hd, hro]

/-- Witness for C9: for the non-runtime.Object "vol-1" object with an
erroring predicate, the delivered Result is the Internal error with no
object: the predicate's own error was replaced. -/
theorem handleEvent_non_runtime_object_internal_witness :
    (handleEvent failWatcher rawObj EventType.update).1 =
      HandleOutcome.delivered { obj := none, err := some internalRuntimeObjErr } :=
  handleEvent_non_runtime_object_internal failWatcher rawObj EventType.update
    ObjectType.azVolume _ false predicateErr rfl rfl rfl rfl rfl rfl

end Watcher

namespace Azuredisk

/-- C10: the non-Linux performance-tuning stub is inert for every input:
`DiskSupportsPerfOptimization` returns false and
`OptimizeDiskPerformance` returns nil, whatever the arguments. -/
theorem deviceHelper_stub_inert (dh : DeviceHelper) (profile acct : String)
    (ni : Option NodeInfo) (skus : List (String × List (String × DiskSkuInfo)))
    (devicePath perfProfile accountType sizeGib iopsStr bwMbps : String) :
    dh.DiskSupportsPerfOptimization profile acct = false ∧
    dh.OptimizeDiskPerformance ni skus devicePath perfProfile accountType
      sizeGib iopsStr bwMbps = none :=
  ⟨rfl, rfl⟩

end Azuredisk

namespace Watcher

/-- Witness for C6: with all three caches synced, the constructor returns
the watcher with an empty registry after registering handlers on all
three informers. -/
theorem new_subscribes_and_barriers_witness :
    (New syncedFactory "azure-disk").result =
      some { waitMap := [], ns := "azure-disk" } :=
  (new_subscribes_and_barriers syncedFactory "azure-disk").2.2.1 ⟨rfl, rfl, rfl⟩

end Watcher

namespace Azuredisk

/-- Witness for C10: the stub is inert on a sample Premium profile. -/
theorem deviceHelper_stub_inert_witness :
    (DeviceHelper.mk).DiskSupportsPerfOptimization "Basic" "Premium_LRS" = false ∧
    (DeviceHelper.mk).OptimizeDiskPerformance none [] "/dev/sda" "Basic" "Premium_LRS"
      "1024" "5000" "200" = none :=
  deviceHelper_stub_inert DeviceHelper.mk "Basic" "Premium_LRS" none []
    "/dev/sda" "Basic" "Premium_LRS" "1024" "5000" "200"

end Azuredisk
